import Mathlib

/-!
Verification development for the video-merger HTTP service (`src/index.js`).

The service exposes `POST /merge`: it validates that both `videoUrl` and
`audioUrl` are present, downloads each to a uniquely named path under `/tmp`,
invokes ffmpeg once to multiplex them, defensively checks that the output file
exists, reads it and base64-encodes it, deletes the three temporary files and
responds with JSON.

The handler is embedded shallowly as a pure function `runMerge` over an
environment `Env` that fixes the outcome of every external interaction
(remote fetches, the ffmpeg subprocess, unlink failures), together with an
explicit filesystem state and a trace of observable events.  Floating-point
formatting (`toFixed`) is abstracted by exact rational/Nat arithmetic; no
property below depends on those formatted values.
-/

/-- A JSON value, used to state the exact response bodies the handler builds. -/
inductive Json where
  | null : Json
  | bool : Bool → Json
  | num : ℚ → Json
  | str : String → Json
  | arr : List Json → Json
  | obj : List (String × Json) → Json

/-- A thrown JavaScript error: its `message` and `stack` (`error.message`,
`error.stack` in the source). -/
structure JsError where
  message : String
  stack : String
deriving DecidableEq

/-- Outcome of one remote fetch (`axios.get` + piping to a write stream).
On failure, `written` is the content of the partially written file when the
write stream had already been created (e.g. size ceiling exceeded mid-stream),
or `none` when the fetch failed before any file was created. -/
inductive DLOutcome where
  | ok (bytes : List Nat)
  | fail (e : JsError) (written : Option (List Nat))
deriving DecidableEq

/-- Filesystem under `/tmp`: an association list from path to file bytes. -/
abbrev FS : Type := List (String × List Nat)

/-- `fs.existsSync p` on the modelled filesystem. -/
def fsExists (fs : FS) (p : String) : Bool :=
  fs.any (fun e => e.1 == p)

/-- Writing a file (create or overwrite) on the modelled filesystem. -/
def fsWrite (fs : FS) (p : String) (bytes : List Nat) : FS :=
  (p, bytes) :: fs.filter (fun e => !(e.1 == p))

/-- `fs.readFileSync p` on the modelled filesystem. -/
def fsRead (fs : FS) (p : String) : Option (List Nat) :=
  (fs.find? (fun e => e.1 == p)).map (·.2)

/-- `fs.unlinkSync p` on the modelled filesystem (the removal itself). -/
def fsRemove (fs : FS) (p : String) : FS :=
  fs.filter (fun e => !(e.1 == p))

/-- Observable events of one request, in the order they happen: a remote fetch
attempt with its `timeout` and `maxContentLength` options, a completed file
write, the ffmpeg invocation with its inputs, output options and output path,
and a file read. -/
inductive Event where
  | download (url : String) (timeoutMs : Nat) (maxContentLength : Nat)
  | fileWrite (path : String)
  | ffmpegRun (inputs : List String) (opts : List String) (output : String)
  | fileRead (path : String)
deriving DecidableEq

/-- The request body fields `videoUrl` and `audioUrl`; `none` models an absent
field. -/
structure Req where
  videoUrl : Option String
  audioUrl : Option String
deriving DecidableEq

/-- JavaScript truthiness of an optional string field (`!videoUrl` in the
source): absent and empty strings are falsy. -/
def truthy : Option String → Bool
  | none => false
  | some s => !s.isEmpty

/-- Environment fixing every external outcome for one request. -/
structure Env where
  /-- Filesystem contents when the request starts. -/
  fs0 : FS
  /-- `Date.now()` at temp-name generation. -/
  timestamp : Nat
  /-- `Math.random().toString(36).substring(7)`. -/
  randomId : String
  /-- Outcome of the video fetch. -/
  videoDL : DLOutcome
  /-- Outcome of the audio fetch. -/
  audioDL : DLOutcome
  /-- Terminal signal of the ffmpeg subprocess: `.ok` for the `end` event,
  `.error e` for the `error` event with the tool's error. -/
  ffmpegExit : Except JsError Unit
  /-- Whether a successful ffmpeg run actually produced the output file
  (`false` models a silent no-op, the case the defensive check guards). -/
  ffmpegWritesOutput : Bool
  /-- Bytes ffmpeg writes to the output path when it produces the file. -/
  outputBytes : List Nat
  /-- Elapsed wall-clock milliseconds, `Date.now() - startTime`. -/
  elapsedMs : Nat
  /-- Stack attached to errors constructed inside the handler itself. -/
  freshStack : String
  /-- Which paths `fs.unlinkSync` throws on (e.g. permission errors). -/
  unlinkFails : String → Bool

/-- Temp path for the downloaded video: `path.join('/tmp', 'video_TS_RID.mp4')`. -/
def videoPathOf (ts : Nat) (rid : String) : String :=
  "/tmp/video_" ++ toString ts ++ "_" ++ rid ++ ".mp4"

/-- Temp path for the downloaded audio: `path.join('/tmp', 'audio_TS_RID.mp3')`. -/
def audioPathOf (ts : Nat) (rid : String) : String :=
  "/tmp/audio_" ++ toString ts ++ "_" ++ rid ++ ".mp3"

/-- Temp path for the merged output: `path.join('/tmp', 'output_TS_RID.mp4')`. -/
def outputPathOf (ts : Nat) (rid : String) : String :=
  "/tmp/output_" ++ toString ts ++ "_" ++ rid ++ ".mp4"

/-- The `outputOptions` array passed to fluent-ffmpeg, verbatim. -/
def ffmpegOutputOptions : List String :=
  ["-c:v copy", "-c:a aac", "-b:a 192k", "-map 0:v:0", "-map 1:a:0",
   "-shortest", "-movflags +faststart", "-y"]

/-- One `if (fs.existsSync(p)) fs.unlinkSync(p);` chain inside a single
`try { ... } catch`, over a list of paths: a throwing unlink aborts the rest of
the chain (the exception is caught and only logged). -/
def cleanupList (env : Env) : FS → List String → FS
  | fs, [] => fs
  | fs, p :: rest =>
    if fsExists fs p then
      if env.unlinkFails p then fs
      else cleanupList env (fsRemove fs p) rest
    else cleanupList env fs rest

/-- The cleanup block over the three temp paths (both the success-path block at
lines 155–161 and the catch-path block at lines 184–190 delete video, audio,
output in this order under one try/catch). -/
def cleanup (env : Env) (fs : FS) (vp ap op : String) : FS :=
  cleanupList env fs [vp, ap, op]

/-- What the handler sends and leaves behind: HTTP status, JSON body, final
filesystem, event trace. -/
structure RunResult where
  status : Nat
  body : Json
  fs : FS
  events : List Event

/-- The HTTP 500 body `{success:false, error, details}` built in the catch
block. -/
def errorBody (e : JsError) : Json :=
  Json.obj [("success", Json.bool false), ("error", Json.str e.message),
            ("details", Json.str e.stack)]

/-- Catch path: cleanup (best effort), then respond 500. -/
def catchResult (env : Env) (fs : FS) (tr : List Event) (vp ap op : String)
    (e : JsError) : RunResult :=
  { status := 500, body := errorBody e,
    fs := cleanup env fs vp ap op, events := tr }

/-- Rendering of `(bytes/1024/1024).toFixed(2)`; exact half-up rounding to
centi-mebibytes stands in for the float computation. -/
def mbFixed2 (bytes : Nat) : String :=
  let centi := (bytes * 200 + 1048576) / 2097152
  toString (centi / 100) ++ "." ++
    (if centi % 100 < 10 then "0" else "") ++ toString (centi % 100)

/-- The video fetch options: `timeout: 60000, maxContentLength: 50*1024*1024`. -/
def videoTimeoutMs : Nat := 60000

/-- The video size ceiling in bytes. -/
def videoMaxBytes : Nat := 50 * 1024 * 1024

/-- The audio fetch options: `timeout: 30000, maxContentLength: 10*1024*1024`. -/
def audioTimeoutMs : Nat := 30000

/-- The audio size ceiling in bytes. -/
def audioMaxBytes : Nat := 10 * 1024 * 1024

/-- The base64 alphabet: sextet values 0–63 to characters, as used by
`Buffer.toString('base64')`. -/
def b64Char (n : Nat) : Char :=
  if n < 26 then Char.ofNat (65 + n)
  else if n < 52 then Char.ofNat (97 + (n - 26))
  else if n < 62 then Char.ofNat (48 + (n - 52))
  else if n = 62 then '+'
  else '/'

/-- Inverse of the base64 alphabet; `none` for characters outside it. -/
def b64Val (c : Char) : Option Nat :=
  let x := c.toNat
  if 65 ≤ x ∧ x ≤ 90 then some (x - 65)
  else if 97 ≤ x ∧ x ≤ 122 then some (x - 97 + 26)
  else if 48 ≤ x ∧ x ≤ 57 then some (x - 48 + 52)
  else if x = 43 then some 62
  else if x = 47 then some 63
  else none

/-- Standard base64 encoding of a byte list, with `=` padding, as produced by
`Buffer.toString('base64')`. -/
def base64Encode : List Nat → List Char
  | a :: b :: c :: rest =>
    b64Char (a / 4) :: b64Char ((a % 4) * 16 + b / 16) ::
    b64Char ((b % 16) * 4 + c / 64) :: b64Char (c % 64) :: base64Encode rest
  | [a, b] =>
    [b64Char (a / 4), b64Char ((a % 4) * 16 + b / 16), b64Char ((b % 16) * 4), '=']
  | [a] =>
    [b64Char (a / 4), b64Char ((a % 4) * 16), '=', '=']
  | [] => []

/-- Standard base64 decoding (`Buffer.from(s, 'base64')` on well-formed
input); `none` on malformed input. -/
def base64Decode : List Char → Option (List Nat)
  | [] => some []
  | c1 :: c2 :: c3 :: c4 :: rest =>
    match b64Val c1, b64Val c2 with
    | some s1, some s2 =>
      if c3 = '=' then
        if c4 = '=' ∧ rest = [] then some [s1 * 4 + s2 / 16] else none
      else
        match b64Val c3 with
        | some s3 =>
          if c4 = '=' then
            if rest = [] then some [s1 * 4 + s2 / 16, (s2 % 16) * 16 + s3 / 4]
            else none
          else
            match b64Val c4 with
            | some s4 =>
              (base64Decode rest).map
                (fun bs => (s1 * 4 + s2 / 16) :: ((s2 % 16) * 16 + s3 / 4) ::
                           ((s3 % 4) * 64 + s4) :: bs)
            | none => none
        | none => none
    | _, _ => none
  | _ => none

/-- The HTTP 200 body `{success:true, base64, stats:{...}, message}` built on
the success path (lines 165–176).  `processingTime` is
`parseFloat(((Date.now()-startTime)/1000).toFixed(2))`, modelled as the exact
elapsed seconds. -/
def successBody (b64 : List Char) (videoSize audioSize outputSize : Nat)
    (elapsedMs : Nat) : Json :=
  Json.obj
    [("success", Json.bool true),
     ("base64", Json.str (String.mk b64)),
     ("stats", Json.obj
       [("inputVideoSize", Json.num videoSize),
        ("inputAudioSize", Json.num audioSize),
        ("outputSize", Json.num outputSize),
        ("processingTime", Json.num ((elapsedMs : ℚ) / 1000)),
        ("outputSizeMB", Json.str (mbFixed2 outputSize))]),
     ("message", Json.str "Video and audio merged successfully")]

/-- The `POST /merge` handler (lines 32–198 of `src/index.js`), as a pure
function of the request and the environment.  Phases run strictly in source
order: validation, temp-path generation, video fetch and write, audio fetch
and write, ffmpeg run, output existence check, read and base64-encode,
cleanup, respond; any thrown error short-circuits to the catch path (cleanup,
then a 500 response). -/
def runMerge (req : Req) (env : Env) : RunResult :=
  if !truthy req.videoUrl || !truthy req.audioUrl then
    { status := 400,
      body := Json.obj
        [("error", Json.str "Missing required fields"),
         ("required", Json.arr [Json.str "videoUrl", Json.str "audioUrl"])],
      fs := env.fs0, events := [] }
  else
    let videoUrl := req.videoUrl.getD ""
    let audioUrl := req.audioUrl.getD ""
    let vp := videoPathOf env.timestamp env.randomId
    let ap := audioPathOf env.timestamp env.randomId
    let op := outputPathOf env.timestamp env.randomId
    let tr0 := [Event.download videoUrl videoTimeoutMs videoMaxBytes]
    match env.videoDL with
    | .fail e w =>
      catchResult env (match w with | some bs => fsWrite env.fs0 vp bs | none => env.fs0)
        tr0 vp ap op e
    | .ok vbytes =>
      let fs1 := fsWrite env.fs0 vp vbytes
      let videoSize := vbytes.length
      let tr1 := tr0 ++ [Event.fileWrite vp,
                         Event.download audioUrl audioTimeoutMs audioMaxBytes]
      match env.audioDL with
      | .fail e w =>
        catchResult env (match w with | some bs => fsWrite fs1 ap bs | none => fs1)
          tr1 vp ap op e
      | .ok abytes =>
        let fs2 := fsWrite fs1 ap abytes
        let audioSize := abytes.length
        let tr2 := tr1 ++ [Event.fileWrite ap,
                           Event.ffmpegRun [vp, ap] ffmpegOutputOptions op]
        match env.ffmpegExit with
        | .error e =>
          catchResult env fs2 tr2 vp ap op
            { message := "FFmpeg error: " ++ e.message, stack := env.freshStack }
        | .ok _ =>
          let fs3 := if env.ffmpegWritesOutput then fsWrite fs2 op env.outputBytes
                     else fs2
          if !fsExists fs3 op then
            catchResult env fs3 tr2 vp ap op
              { message := "Output file was not created", stack := env.freshStack }
          else
            let outBytes := (fsRead fs3 op).getD []
            let tr3 := tr2 ++ [Event.fileRead op]
            { status := 200,
              body := successBody (base64Encode outBytes) videoSize audioSize
                        outBytes.length env.elapsedMs,
              fs := cleanup env fs3 vp ap op,
              events := tr3 }

/-- A well-formed request used to instantiate concrete runs. -/
def reqDemo : Req :=
  { videoUrl := some "https://host/a.mp4", audioUrl := some "https://host/b.mp3" }

/-- An axios-style error that reads the same for either stream. -/
def err404 : JsError :=
  { message := "Request failed with status code 404", stack := "Error: 404" }

/-- An environment in which every phase succeeds. -/
def envOk : Env :=
  { fs0 := [], timestamp := 1700000000000, randomId := "k3x9z",
    videoDL := .ok [0, 0, 0, 32], audioDL := .ok [73, 68, 51],
    ffmpegExit := .ok (), ffmpegWritesOutput := true,
    outputBytes := [0, 255, 10, 66], elapsedMs := 2500,
    freshStack := "Error: fresh", unlinkFails := fun _ => false }

/-- Like `envOk` but the video fetch fails with `err404`. -/
def envVideoFail : Env :=
  { envOk with videoDL := .fail err404 none }

/-- Like `envOk` but the audio fetch fails with `err404`. -/
def envAudioFail : Env :=
  { envOk with audioDL := .fail err404 none }

/-- Like `envOk` but ffmpeg reports success without creating the output. -/
def envNoOutput : Env :=
  { envOk with ffmpegWritesOutput := false }

/-- The fetch attempts recorded in a trace, in order, with their options. -/
def downloadsOf (tr : List Event) : List (String × Nat × Nat) :=
  tr.filterMap (fun e =>
    match e with
    | .download u t m => some (u, t, m)
    | _ => none)

/-- Field lookup in a JSON object. -/
def jsonField (j : Json) (k : String) : Option Json :=
  match j with
  | Json.obj fields => (fields.find? (fun e => e.1 == k)).map (·.2)
  | _ => none

/-- In trace `tr`, every occurrence of `e2` is strictly preceded by an
occurrence of `e1`. -/
def eventsBefore (tr : List Event) (e1 e2 : Event) : Prop :=
  ∀ j : Nat, tr[j]? = some e2 → ∃ i : Nat, i < j ∧ tr[i]? = some e1

/-- Removing a path makes it absent. -/
theorem fsExists_fsRemove_self (fs : FS) (p : String) :
    fsExists (fsRemove fs p) p = false := by
  cases h : fsExists (fsRemove fs p) p with
  | false => rfl
  | true =>
    exfalso
    simp only [fsExists, fsRemove, List.any_eq_true] at h
    obtain ⟨e, he, hq⟩ := h
    have h2 := (List.mem_filter.mp he).2
    simp [hq] at h2

/-- Removing one path creates no other entries. -/
theorem fsExists_fsRemove_le (fs : FS) (p q : String)
    (h : fsExists (fsRemove fs p) q = true) : fsExists fs q = true := by
  simp only [fsExists, fsRemove, List.any_eq_true] at *
  obtain ⟨e, he, hq⟩ := h
  exact ⟨e, (List.mem_filter.mp he).1, hq⟩

/-- Reading back a just-written file yields the written bytes. -/
theorem fsRead_fsWrite_self (fs : FS) (p : String) (bs : List Nat) :
    fsRead (fsWrite fs p bs) p = some bs := by
  simp [fsRead, fsWrite, List.find?]

/-- A just-written file exists. -/
theorem fsExists_fsWrite_self (fs : FS) (p : String) (bs : List Nat) :
    fsExists (fsWrite fs p bs) p = true := by
  simp [fsExists, fsWrite]

/-- Writing one path does not change the existence of another. -/
theorem fsExists_fsWrite_ne (fs : FS) (p q : String) (bs : List Nat) (h : p ≠ q) :
    fsExists (fsWrite fs p bs) q = fsExists fs q := by
  rw [Bool.eq_iff_iff]
  simp only [fsExists, fsWrite, List.any_cons, List.any_eq_true, Bool.or_eq_true,
    List.mem_filter]
  constructor
  · rintro (hpq | ⟨e, ⟨he, _⟩, hq⟩)
    · exact absurd (by simpa using hpq) h
    · exact ⟨e, he, hq⟩
  · rintro ⟨e, he, hq⟩
    right
    refine ⟨e, ⟨he, ?_⟩, hq⟩
    have he1 : e.1 = q := by simpa using hq
    simp [he1, Ne.symm h]

/-- The cleanup chain never creates files: anything present afterwards was
present before. -/
theorem cleanupList_mono (env : Env) (ps : List String) :
    ∀ (fs : FS) (q : String), fsExists (cleanupList env fs ps) q = true →
      fsExists fs q = true := by
  induction ps with
  | nil => intro fs q h; exact h
  | cons p rest ih =>
    intro fs q h
    unfold cleanupList at h
    by_cases hex : fsExists fs p = true
    · rw [if_pos hex] at h
      by_cases hu : env.unlinkFails p = true
      · rw [if_pos hu] at h; exact h
      · rw [if_neg hu] at h
        exact fsExists_fsRemove_le _ _ _ (ih _ _ h)
    · rw [if_neg hex] at h; exact ih _ _ h

/-- If no unlink in the chain throws, every path in the chain is absent after
cleanup. -/
theorem cleanupList_removes (env : Env) (ps : List String)
    (h : ∀ p ∈ ps, env.unlinkFails p = false) :
    ∀ (fs : FS), ∀ p ∈ ps, fsExists (cleanupList env fs ps) p = false := by
  induction ps with
  | nil => intro fs p hp; cases hp
  | cons q rest ih =>
    intro fs p hp
    unfold cleanupList
    have hrest : ∀ r ∈ rest, env.unlinkFails r = false := fun r hr => h r (by simp [hr])
    by_cases hex : fsExists fs q = true
    · rw [if_pos hex, if_neg (by simp [h q (by simp)])]
      rcases List.mem_cons.mp hp with rfl | hp2
      · cases hres : fsExists (cleanupList env (fsRemove fs p) rest) p with
        | false => rfl
        | true =>
          have h2 := cleanupList_mono env rest _ _ hres
          rw [fsExists_fsRemove_self] at h2
          cases h2
      · exact ih hrest _ p hp2
    · rw [if_neg hex]
      rcases List.mem_cons.mp hp with rfl | hp2
      · cases hres : fsExists (cleanupList env fs rest) p with
        | false => rfl
        | true =>
          have h2 := cleanupList_mono env rest _ _ hres
          exact absurd h2 hex
      · exact ih hrest _ p hp2

/-- Strings that differ at character index 5 differ. -/
theorem ne_of_data5 (x y : String) (h : x.data[5]? ≠ y.data[5]?) : x ≠ y :=
  fun he => h (by rw [he])

/-- The video and audio temp paths differ for every timestamp and random id. -/
theorem videoPath_ne_audioPath (ts : Nat) (rid : String) :
    videoPathOf ts rid ≠ audioPathOf ts rid := by
  apply ne_of_data5
  simp [videoPathOf, audioPathOf, String.data_append]

/-- The video and output temp paths differ for every timestamp and random id. -/
theorem videoPath_ne_outputPath (ts : Nat) (rid : String) :
    videoPathOf ts rid ≠ outputPathOf ts rid := by
  apply ne_of_data5
  simp [videoPathOf, outputPathOf, String.data_append]

/-- The audio and output temp paths differ for every timestamp and random id. -/
theorem audioPath_ne_outputPath (ts : Nat) (rid : String) :
    audioPathOf ts rid ≠ outputPathOf ts rid := by
  apply ne_of_data5
  simp [audioPathOf, outputPathOf, String.data_append]

/-- Every base64 alphabet character decodes back to its sextet and is not the
padding character. -/
theorem b64Val_b64Char_fin :
    ∀ s : Fin 64, b64Val (b64Char s.val) = some s.val ∧ b64Char s.val ≠ '=' := by
  decide

/-- Alphabet round trip for sextets below 64. -/
theorem b64Val_b64Char (n : Nat) (h : n < 64) : b64Val (b64Char n) = some n :=
  (b64Val_b64Char_fin ⟨n, h⟩).1

/-- Alphabet characters are never the padding character. -/
theorem b64Char_ne_pad (n : Nat) (h : n < 64) : b64Char n ≠ '=' :=
  (b64Val_b64Char_fin ⟨n, h⟩).2

/-- Base64 round trip: decoding an encoded byte list gives back the bytes. -/
theorem base64_roundtrip : ∀ (bs : List Nat), (∀ b ∈ bs, b < 256) →
    base64Decode (base64Encode bs) = some bs
  | [], _ => rfl
  | [a], h => by
    have ha : a < 256 := h a (by simp)
    have e1 := b64Val_b64Char (a / 4) (by omega)
    have e2 := b64Val_b64Char ((a % 4) * 16) (by omega)
    simp only [base64Encode, base64Decode, e1, e2, and_self, if_true]
    simp only [Option.some.injEq, List.cons.injEq, and_true]
    omega
  | [a, b], h => by
    have ha : a < 256 := h a (by simp)
    have hb : b < 256 := h b (by simp)
    have e1 := b64Val_b64Char (a / 4) (by omega)
    have e2 := b64Val_b64Char ((a % 4) * 16 + b / 16) (by omega)
    have e3 := b64Val_b64Char ((b % 16) * 4) (by omega)
    have n3 := b64Char_ne_pad ((b % 16) * 4) (by omega)
    simp only [base64Encode, base64Decode, e1, e2, e3, if_neg n3, if_true]
    simp only [Option.some.injEq, List.cons.injEq, and_true]
    exact ⟨by omega, by omega⟩
  | a :: b :: c :: rest, h => by
    have ha : a < 256 := h a (by simp)
    have hb : b < 256 := h b (by simp)
    have hc : c < 256 := h c (by simp)
    have ih := base64_roundtrip rest (fun x hx => h x (by simp [hx]))
    have e1 := b64Val_b64Char (a / 4) (by omega)
    have e2 := b64Val_b64Char ((a % 4) * 16 + b / 16) (by omega)
    have e3 := b64Val_b64Char ((b % 16) * 4 + c / 64) (by omega)
    have e4 := b64Val_b64Char (c % 64) (by omega)
    have n3 := b64Char_ne_pad ((b % 16) * 4 + c / 64) (by omega)
    have n4 := b64Char_ne_pad (c % 64) (by omega)
    simp only [base64Encode, base64Decode, e1, e2, e3, e4, if_neg n3, if_neg n4, ih,
      Option.map_some']
    simp only [Option.some.injEq, List.cons.injEq]
    exact ⟨by omega, by omega, by omega, trivial⟩

/-- On a video fetch failure the handler short-circuits to the catch path:
only the video fetch was attempted. -/
theorem runMerge_videoFail (req : Req) (env : Env)
    (hv : truthy req.videoUrl = true) (ha : truthy req.audioUrl = true)
    (e : JsError) (w : Option (List Nat)) (hdl : env.videoDL = .fail e w) :
    runMerge req env =
      catchResult env
        (match w with
         | some bs => fsWrite env.fs0 (videoPathOf env.timestamp env.randomId) bs
         | none => env.fs0)
        [Event.download (req.videoUrl.getD "") videoTimeoutMs videoMaxBytes]
        (videoPathOf env.timestamp env.randomId)
        (audioPathOf env.timestamp env.randomId)
        (outputPathOf env.timestamp env.randomId) e := by
  simp only [runMerge, hv, ha, hdl, Bool.not_true, Bool.or_self, Bool.false_eq_true,
    if_false]
  cases w <;> rfl

/-- On an audio fetch failure the handler short-circuits to the catch path:
the video was fetched and written, the audio fetch was attempted. -/
theorem runMerge_audioFail (req : Req) (env : Env)
    (hv : truthy req.videoUrl = true) (ha : truthy req.audioUrl = true)
    (vb : List Nat) (e : JsError) (w : Option (List Nat))
    (hvd : env.videoDL = .ok vb) (had : env.audioDL = .fail e w) :
    runMerge req env =
      catchResult env
        (match w with
         | some bs => fsWrite (fsWrite env.fs0 (videoPathOf env.timestamp env.randomId) vb)
             (audioPathOf env.timestamp env.randomId) bs
         | none => fsWrite env.fs0 (videoPathOf env.timestamp env.randomId) vb)
        [Event.download (req.videoUrl.getD "") videoTimeoutMs videoMaxBytes,
         Event.fileWrite (videoPathOf env.timestamp env.randomId),
         Event.download (req.audioUrl.getD "") audioTimeoutMs audioMaxBytes]
        (videoPathOf env.timestamp env.randomId)
        (audioPathOf env.timestamp env.randomId)
        (outputPathOf env.timestamp env.randomId) e := by
  simp only [runMerge, hv, ha, hvd, had, Bool.not_true, Bool.or_self, Bool.false_eq_true,
    if_false, List.cons_append, List.nil_append]
  cases w <;> rfl

/-- On an ffmpeg error the handler short-circuits to the catch path with the
wrapped tool error; both files were downloaded and ffmpeg was invoked. -/
theorem runMerge_ffmpegFail (req : Req) (env : Env)
    (hv : truthy req.videoUrl = true) (ha : truthy req.audioUrl = true)
    (vb ab : List Nat) (e : JsError)
    (hvd : env.videoDL = .ok vb) (had : env.audioDL = .ok ab)
    (hff : env.ffmpegExit = .error e) :
    runMerge req env =
      catchResult env
        (fsWrite (fsWrite env.fs0 (videoPathOf env.timestamp env.randomId) vb)
          (audioPathOf env.timestamp env.randomId) ab)
        [Event.download (req.videoUrl.getD "") videoTimeoutMs videoMaxBytes,
         Event.fileWrite (videoPathOf env.timestamp env.randomId),
         Event.download (req.audioUrl.getD "") audioTimeoutMs audioMaxBytes,
         Event.fileWrite (audioPathOf env.timestamp env.randomId),
         Event.ffmpegRun
           [videoPathOf env.timestamp env.randomId,
            audioPathOf env.timestamp env.randomId]
           ffmpegOutputOptions (outputPathOf env.timestamp env.randomId)]
        (videoPathOf env.timestamp env.randomId)
        (audioPathOf env.timestamp env.randomId)
        (outputPathOf env.timestamp env.randomId)
        { message := "FFmpeg error: " ++ e.message, stack := env.freshStack } := by
  simp only [runMerge, hv, ha, hvd, had, hff, Bool.not_true, Bool.or_self,
    Bool.false_eq_true, if_false, List.cons_append, List.nil_append]

/-- When ffmpeg reports success but produced no output file (and none
pre-exists), the defensive check throws and the handler takes the catch path;
the output file is never read. -/
theorem runMerge_noOutput (req : Req) (env : Env)
    (hv : truthy req.videoUrl = true) (ha : truthy req.audioUrl = true)
    (vb ab : List Nat)
    (hvd : env.videoDL = .ok vb) (had : env.audioDL = .ok ab)
    (hff : env.ffmpegExit = .ok ()) (hwo : env.ffmpegWritesOutput = false)
    (hex : fsExists
      (fsWrite (fsWrite env.fs0 (videoPathOf env.timestamp env.randomId) vb)
        (audioPathOf env.timestamp env.randomId) ab)
      (outputPathOf env.timestamp env.randomId) = false) :
    runMerge req env =
      catchResult env
        (fsWrite (fsWrite env.fs0 (videoPathOf env.timestamp env.randomId) vb)
          (audioPathOf env.timestamp env.randomId) ab)
        [Event.download (req.videoUrl.getD "") videoTimeoutMs videoMaxBytes,
         Event.fileWrite (videoPathOf env.timestamp env.randomId),
         Event.download (req.audioUrl.getD "") audioTimeoutMs audioMaxBytes,
         Event.fileWrite (audioPathOf env.timestamp env.randomId),
         Event.ffmpegRun
           [videoPathOf env.timestamp env.randomId,
            audioPathOf env.timestamp env.randomId]
           ffmpegOutputOptions (outputPathOf env.timestamp env.randomId)]
        (videoPathOf env.timestamp env.randomId)
        (audioPathOf env.timestamp env.randomId)
        (outputPathOf env.timestamp env.randomId)
        { message := "Output file was not created", stack := env.freshStack } := by
  simp only [runMerge, hv, ha, hvd, had, hff, hwo, Bool.not_true, Bool.or_self,
    Bool.false_eq_true, if_false, hex, Bool.not_false, if_true,
    List.cons_append, List.nil_append]

/-- When every phase succeeds and ffmpeg writes the output file, the handler
reads it back and responds 200 with its base64 encoding and the stats. -/
theorem runMerge_success (req : Req) (env : Env)
    (hv : truthy req.videoUrl = true) (ha : truthy req.audioUrl = true)
    (vb ab : List Nat)
    (hvd : env.videoDL = .ok vb) (had : env.audioDL = .ok ab)
    (hff : env.ffmpegExit = .ok ()) (hwo : env.ffmpegWritesOutput = true) :
    runMerge req env =
      { status := 200,
        body := successBody (base64Encode env.outputBytes) vb.length ab.length
                  env.outputBytes.length env.elapsedMs,
        fs := cleanup env
          (fsWrite
            (fsWrite (fsWrite env.fs0 (videoPathOf env.timestamp env.randomId) vb)
              (audioPathOf env.timestamp env.randomId) ab)
            (outputPathOf env.timestamp env.randomId) env.outputBytes)
          (videoPathOf env.timestamp env.randomId)
          (audioPathOf env.timestamp env.randomId)
          (outputPathOf env.timestamp env.randomId),
        events :=
          [Event.download (req.videoUrl.getD "") videoTimeoutMs videoMaxBytes,
           Event.fileWrite (videoPathOf env.timestamp env.randomId),
           Event.download (req.audioUrl.getD "") audioTimeoutMs audioMaxBytes,
           Event.fileWrite (audioPathOf env.timestamp env.randomId),
           Event.ffmpegRun
             [videoPathOf env.timestamp env.randomId,
              audioPathOf env.timestamp env.randomId]
             ffmpegOutputOptions (outputPathOf env.timestamp env.randomId),
           Event.fileRead (outputPathOf env.timestamp env.randomId)] } := by
  simp only [runMerge, hv, ha, hvd, had, hff, hwo, Bool.not_true, Bool.or_self,
    Bool.false_eq_true, if_false, if_true, fsExists_fsWrite_self, Bool.not_true,
    fsRead_fsWrite_self, Option.getD_some, List.cons_append, List.nil_append]

/-- For every validated request, whatever the phase outcomes, the final
filesystem is the cleanup chain applied over the three temp paths. -/
theorem runMerge_fs_shape (req : Req) (env : Env)
    (hv : truthy req.videoUrl = true) (ha : truthy req.audioUrl = true) :
    ∃ fs, (runMerge req env).fs =
      cleanup env fs (videoPathOf env.timestamp env.randomId)
        (audioPathOf env.timestamp env.randomId)
        (outputPathOf env.timestamp env.randomId) := by
  cases hvd : env.videoDL with
  | fail e w =>
    rw [runMerge_videoFail req env hv ha e w hvd]
    exact ⟨_, rfl⟩
  | ok vb =>
    cases had : env.audioDL with
    | fail e w =>
      rw [runMerge_audioFail req env hv ha vb e w hvd had]
      exact ⟨_, rfl⟩
    | ok ab =>
      cases hff : env.ffmpegExit with
      | error e =>
        rw [runMerge_ffmpegFail req env hv ha vb ab e hvd had hff]
        exact ⟨_, rfl⟩
      | ok u =>
        simp only [runMerge, hv, ha, hvd, had, hff, Bool.not_true, Bool.or_self,
          Bool.false_eq_true, if_false]
        split <;> split <;> exact ⟨_, rfl⟩

/-- The status and body of the response do not depend on which unlinks fail:
cleanup failures are never surfaced to the caller. -/
theorem runMerge_resp_indep (req : Req) (env : Env) (f : String → Bool) :
    (runMerge req { env with unlinkFails := f }).status = (runMerge req env).status ∧
    (runMerge req { env with unlinkFails := f }).body = (runMerge req env).body := by
  obtain ⟨fs0, ts, rid, vdl, adl, ff, fwo, ob, ems, stk, ulf⟩ := env
  by_cases hv : (!truthy req.videoUrl || !truthy req.audioUrl) = true
  · simp [runMerge, hv]
  · rw [Bool.not_eq_true] at hv
    cases vdl with
    | fail e w => cases w <;> simp [runMerge, hv, catchResult, errorBody]
    | ok vb =>
      cases adl with
      | fail e w => cases w <;> simp [runMerge, hv, catchResult, errorBody]
      | ok ab =>
        cases ff with
        | error e => simp [runMerge, hv, catchResult, errorBody]
        | ok u =>
          cases fwo <;> simp [runMerge, hv, catchResult, errorBody] <;>
            split <;> simp [catchResult, errorBody]

/-- C1: for every POST /merge request that passes validation, whatever the
phase outcomes, if no unlink throws then none of the three temporary artifacts
(video, audio, output) exists on storage after the response; and the
response's status and body are exactly those of a run whose unlinks all
succeed, so a deletion failure is never surfaced to the caller. -/
theorem merge_cleanup_invariant (req : Req) (env : Env)
    (hv : truthy req.videoUrl = true) (ha : truthy req.audioUrl = true) :
    ((env.unlinkFails (videoPathOf env.timestamp env.randomId) = false ∧
      env.unlinkFails (audioPathOf env.timestamp env.randomId) = false ∧
      env.unlinkFails (outputPathOf env.timestamp env.randomId) = false) →
      fsExists (runMerge req env).fs (videoPathOf env.timestamp env.randomId) = false ∧
      fsExists (runMerge req env).fs (audioPathOf env.timestamp env.randomId) = false ∧
      fsExists (runMerge req env).fs (outputPathOf env.timestamp env.randomId) = false) ∧
    ((runMerge req { env with unlinkFails := fun _ => false }).status
       = (runMerge req env).status ∧
     (runMerge req { env with unlinkFails := fun _ => false }).body
       = (runMerge req env).body) := by
  constructor
  · rintro ⟨h1, h2, h3⟩
    obtain ⟨fs, hfs⟩ := runMerge_fs_shape req env hv ha
    simp only [cleanup] at hfs
    rw [hfs]
    have hall : ∀ p ∈ [videoPathOf env.timestamp env.randomId,
        audioPathOf env.timestamp env.randomId,
        outputPathOf env.timestamp env.randomId], env.unlinkFails p = false := by
      intro p hp
      simp only [List.mem_cons, List.not_mem_nil, or_false] at hp
      rcases hp with rfl | rfl | rfl <;> assumption
    have hr := cleanupList_removes env _ hall fs
    exact ⟨hr _ (by simp), hr _ (by simp), hr _ (by simp)⟩
  · exact runMerge_resp_indep req env (fun _ => false)

/-- C1 witness: the invariant instantiated at a concrete request and a fully
successful environment. -/
theorem merge_cleanup_invariant_witness :
    (truthy reqDemo.videoUrl = true ∧ truthy reqDemo.audioUrl = true) ∧
    (((envOk.unlinkFails (videoPathOf envOk.timestamp envOk.randomId) = false ∧
       envOk.unlinkFails (audioPathOf envOk.timestamp envOk.randomId) = false ∧
       envOk.unlinkFails (outputPathOf envOk.timestamp envOk.randomId) = false) →
       fsExists (runMerge reqDemo envOk).fs
         (videoPathOf envOk.timestamp envOk.randomId) = false ∧
       fsExists (runMerge reqDemo envOk).fs
         (audioPathOf envOk.timestamp envOk.randomId) = false ∧
       fsExists (runMerge reqDemo envOk).fs
         (outputPathOf envOk.timestamp envOk.randomId) = false) ∧
     ((runMerge reqDemo { envOk with unlinkFails := fun _ => false }).status
        = (runMerge reqDemo envOk).status ∧
      (runMerge reqDemo { envOk with unlinkFails := fun _ => false }).body
        = (runMerge reqDemo envOk).body)) :=
  ⟨⟨rfl, rfl⟩, merge_cleanup_invariant reqDemo envOk rfl rfl⟩

/-- C2: a request missing videoUrl or audioUrl is rejected immediately with
HTTP 400 and the exact error body, the filesystem is untouched and no
download, write, ffmpeg or read event happens. -/
theorem merge_missing_field_rejected (req : Req) (env : Env)
    (h : req.videoUrl = none ∨ req.audioUrl = none) :
    (runMerge req env).status = 400 ∧
    (runMerge req env).body = Json.obj
      [("error", Json.str "Missing required fields"),
       ("required", Json.arr [Json.str "videoUrl", Json.str "audioUrl"])] ∧
    (runMerge req env).fs = env.fs0 ∧
    (runMerge req env).events = [] := by
  have hf : (!truthy req.videoUrl || !truthy req.audioUrl) = true := by
    rcases h with h | h <;> simp [h, truthy]
  simp [runMerge, hf]

/-- C2 witness: a request with audioUrl omitted, in a fully successful
environment. -/
theorem merge_missing_field_rejected_witness :
    ((Req.mk (some "https://host/a.mp4") none).videoUrl = none ∨
     (Req.mk (some "https://host/a.mp4") none).audioUrl = none) ∧
    ((runMerge (Req.mk (some "https://host/a.mp4") none) envOk).status = 400 ∧
     (runMerge (Req.mk (some "https://host/a.mp4") none) envOk).body = Json.obj
       [("error", Json.str "Missing required fields"),
        ("required", Json.arr [Json.str "videoUrl", Json.str "audioUrl"])] ∧
     (runMerge (Req.mk (some "https://host/a.mp4") none) envOk).fs = envOk.fs0 ∧
     (runMerge (Req.mk (some "https://host/a.mp4") none) envOk).events = []) :=
  ⟨Or.inr rfl, merge_missing_field_rejected _ envOk (Or.inr rfl)⟩

/-- For every validated request, the event trace takes one of exactly four
shapes, corresponding to the phase at which the run stopped. -/
theorem runMerge_events_shape (req : Req) (env : Env)
    (hv : truthy req.videoUrl = true) (ha : truthy req.audioUrl = true) :
    (runMerge req env).events
      = [Event.download (req.videoUrl.getD "") videoTimeoutMs videoMaxBytes] ∨
    (runMerge req env).events
      = [Event.download (req.videoUrl.getD "") videoTimeoutMs videoMaxBytes,
         Event.fileWrite (videoPathOf env.timestamp env.randomId),
         Event.download (req.audioUrl.getD "") audioTimeoutMs audioMaxBytes] ∨
    (runMerge req env).events
      = [Event.download (req.videoUrl.getD "") videoTimeoutMs videoMaxBytes,
         Event.fileWrite (videoPathOf env.timestamp env.randomId),
         Event.download (req.audioUrl.getD "") audioTimeoutMs audioMaxBytes,
         Event.fileWrite (audioPathOf env.timestamp env.randomId),
         Event.ffmpegRun
           [videoPathOf env.timestamp env.randomId,
            audioPathOf env.timestamp env.randomId]
           ffmpegOutputOptions (outputPathOf env.timestamp env.randomId)] ∨
    (runMerge req env).events
      = [Event.download (req.videoUrl.getD "") videoTimeoutMs videoMaxBytes,
         Event.fileWrite (videoPathOf env.timestamp env.randomId),
         Event.download (req.audioUrl.getD "") audioTimeoutMs audioMaxBytes,
         Event.fileWrite (audioPathOf env.timestamp env.randomId),
         Event.ffmpegRun
           [videoPathOf env.timestamp env.randomId,
            audioPathOf env.timestamp env.randomId]
           ffmpegOutputOptions (outputPathOf env.timestamp env.randomId),
         Event.fileRead (outputPathOf env.timestamp env.randomId)] := by
  cases hvd : env.videoDL with
  | fail e w =>
    rw [runMerge_videoFail req env hv ha e w hvd]
    exact Or.inl rfl
  | ok vb =>
    cases had : env.audioDL with
    | fail e w =>
      rw [runMerge_audioFail req env hv ha vb e w hvd had]
      exact Or.inr (Or.inl rfl)
    | ok ab =>
      cases hff : env.ffmpegExit with
      | error e =>
        rw [runMerge_ffmpegFail req env hv ha vb ab e hvd had hff]
        exact Or.inr (Or.inr (Or.inl rfl))
      | ok u =>
        cases u
        simp only [runMerge, hv, ha, hvd, had, hff, Bool.not_true, Bool.or_self,
          Bool.false_eq_true, if_false]
        split <;> split
        · exact Or.inr (Or.inr (Or.inl rfl))
        · exact Or.inr (Or.inr (Or.inr rfl))
        · exact Or.inr (Or.inr (Or.inl rfl))
        · exact Or.inr (Or.inr (Or.inr rfl))

/-- When both downloads succeed, the trace contains the five combine-phase
events, optionally followed by the output read. -/
theorem runMerge_events_combine (req : Req) (env : Env)
    (hv : truthy req.videoUrl = true) (ha : truthy req.audioUrl = true)
    (vb ab : List Nat) (hvd : env.videoDL = .ok vb) (had : env.audioDL = .ok ab) :
    (runMerge req env).events
      = [Event.download (req.videoUrl.getD "") videoTimeoutMs videoMaxBytes,
         Event.fileWrite (videoPathOf env.timestamp env.randomId),
         Event.download (req.audioUrl.getD "") audioTimeoutMs audioMaxBytes,
         Event.fileWrite (audioPathOf env.timestamp env.randomId),
         Event.ffmpegRun
           [videoPathOf env.timestamp env.randomId,
            audioPathOf env.timestamp env.randomId]
           ffmpegOutputOptions (outputPathOf env.timestamp env.randomId)] ∨
    (runMerge req env).events
      = [Event.download (req.videoUrl.getD "") videoTimeoutMs videoMaxBytes,
         Event.fileWrite (videoPathOf env.timestamp env.randomId),
         Event.download (req.audioUrl.getD "") audioTimeoutMs audioMaxBytes,
         Event.fileWrite (audioPathOf env.timestamp env.randomId),
         Event.ffmpegRun
           [videoPathOf env.timestamp env.randomId,
            audioPathOf env.timestamp env.randomId]
           ffmpegOutputOptions (outputPathOf env.timestamp env.randomId),
         Event.fileRead (outputPathOf env.timestamp env.randomId)] := by
  cases hff : env.ffmpegExit with
  | error e =>
    rw [runMerge_ffmpegFail req env hv ha vb ab e hvd had hff]
    exact Or.inl rfl
  | ok u =>
    cases u
    simp only [runMerge, hv, ha, hvd, had, hff, Bool.not_true, Bool.or_self,
      Bool.false_eq_true, if_false]
    split <;> split
    · exact Or.inl rfl
    · exact Or.inr rfl
    · exact Or.inl rfl
    · exact Or.inr rfl

/-- C3: for every request that passes validation, the response takes exactly
one of the two documented shapes — HTTP 200 with
`{success:true, base64, stats:{inputVideoSize, inputAudioSize, outputSize,
processingTime, outputSizeMB}, message}` on success, or HTTP 500 with
`{success:false, error, details}` on any processing failure — and never a
mixture of the two. -/
theorem merge_response_all_or_nothing (req : Req) (env : Env)
    (hv : truthy req.videoUrl = true) (ha : truthy req.audioUrl = true) :
    ((runMerge req env).status = 200 ∧
     ∃ (b64 msg mb : String) (v a o p : ℚ), (runMerge req env).body = Json.obj
       [("success", Json.bool true), ("base64", Json.str b64),
        ("stats", Json.obj
          [("inputVideoSize", Json.num v), ("inputAudioSize", Json.num a),
           ("outputSize", Json.num o), ("processingTime", Json.num p),
           ("outputSizeMB", Json.str mb)]),
        ("message", Json.str msg)]) ∨
    ((runMerge req env).status = 500 ∧
     ∃ emsg detail, (runMerge req env).body = Json.obj
       [("success", Json.bool false), ("error", Json.str emsg),
        ("details", Json.str detail)]) := by
  cases hvd : env.videoDL with
  | fail e w =>
    rw [runMerge_videoFail req env hv ha e w hvd]
    exact Or.inr ⟨rfl, e.message, e.stack, rfl⟩
  | ok vb =>
    cases had : env.audioDL with
    | fail e w =>
      rw [runMerge_audioFail req env hv ha vb e w hvd had]
      exact Or.inr ⟨rfl, e.message, e.stack, rfl⟩
    | ok ab =>
      cases hff : env.ffmpegExit with
      | error e =>
        rw [runMerge_ffmpegFail req env hv ha vb ab e hvd had hff]
        exact Or.inr ⟨rfl, _, _, rfl⟩
      | ok u =>
        cases u
        simp only [runMerge, hv, ha, hvd, had, hff, Bool.not_true, Bool.or_self,
          Bool.false_eq_true, if_false]
        split <;> split
        · exact Or.inr ⟨rfl, _, _, rfl⟩
        · exact Or.inl ⟨rfl, _, _, _, _, _, _, _, rfl⟩
        · exact Or.inr ⟨rfl, _, _, rfl⟩
        · exact Or.inl ⟨rfl, _, _, _, _, _, _, _, rfl⟩

/-- C3 witness: the all-or-nothing response shape at a concrete request and a
fully successful environment. -/
theorem merge_response_all_or_nothing_witness :
    (truthy reqDemo.videoUrl = true ∧ truthy reqDemo.audioUrl = true) ∧
    (((runMerge reqDemo envOk).status = 200 ∧
      ∃ (b64 msg mb : String) (v a o p : ℚ), (runMerge reqDemo envOk).body = Json.obj
        [("success", Json.bool true), ("base64", Json.str b64),
         ("stats", Json.obj
           [("inputVideoSize", Json.num v), ("inputAudioSize", Json.num a),
            ("outputSize", Json.num o), ("processingTime", Json.num p),
            ("outputSizeMB", Json.str mb)]),
         ("message", Json.str msg)]) ∨
     ((runMerge reqDemo envOk).status = 500 ∧
      ∃ emsg detail, (runMerge reqDemo envOk).body = Json.obj
        [("success", Json.bool false), ("error", Json.str emsg),
         ("details", Json.str detail)])) :=
  ⟨⟨rfl, rfl⟩, merge_response_all_or_nothing reqDemo envOk rfl rfl⟩

/-- C4 counterexample: a run whose video fetch fails and a run whose audio
fetch fails (same axios error text) produce byte-identical responses — status
and body equal — so the response does not identify which stream failed. -/
theorem merge_download_error_anonymous :
    envVideoFail.videoDL = DLOutcome.fail err404 none ∧
    envAudioFail.videoDL = DLOutcome.ok [0, 0, 0, 32] ∧
    envAudioFail.audioDL = DLOutcome.fail err404 none ∧
    (runMerge reqDemo envVideoFail).status = (runMerge reqDemo envAudioFail).status ∧
    (runMerge reqDemo envVideoFail).body = (runMerge reqDemo envAudioFail).body :=
  ⟨rfl, rfl, rfl, rfl, rfl⟩

/-- C4 (amended): if either stream's fetch fails (error, timeout or size
ceiling all surface as a fetch failure), the request fails with HTTP 500
carrying the fetch error's message and stack as `{success:false, error,
details}`, and ffmpeg is never invoked; the response does not necessarily
identify which stream failed. -/
theorem merge_download_fail_no_ffmpeg (req : Req) (env : Env)
    (hv : truthy req.videoUrl = true) (ha : truthy req.audioUrl = true)
    (e : JsError)
    (h : (∃ w, env.videoDL = .fail e w) ∨
         ((∃ vb, env.videoDL = .ok vb) ∧ ∃ w, env.audioDL = .fail e w)) :
    (runMerge req env).status = 500 ∧
    (runMerge req env).body = errorBody e ∧
    ∀ i o out, Event.ffmpegRun i o out ∉ (runMerge req env).events := by
  rcases h with ⟨w, hdl⟩ | ⟨⟨vb, hvd⟩, w, had⟩
  · rw [runMerge_videoFail req env hv ha e w hdl]
    refine ⟨rfl, rfl, ?_⟩
    intro i o out hmem
    simp [catchResult] at hmem
  · rw [runMerge_audioFail req env hv ha vb e w hvd had]
    refine ⟨rfl, rfl, ?_⟩
    intro i o out hmem
    simp [catchResult] at hmem

/-- C4 witness: the amended claim at a concrete request whose video fetch
fails with a 404. -/
theorem merge_download_fail_no_ffmpeg_witness :
    (truthy reqDemo.videoUrl = true ∧ truthy reqDemo.audioUrl = true ∧
     envVideoFail.videoDL = DLOutcome.fail err404 none) ∧
    ((runMerge reqDemo envVideoFail).status = 500 ∧
     (runMerge reqDemo envVideoFail).body = errorBody err404 ∧
     ∀ i o out, Event.ffmpegRun i o out ∉ (runMerge reqDemo envVideoFail).events) :=
  ⟨⟨rfl, rfl, rfl⟩,
   merge_download_fail_no_ffmpeg reqDemo envVideoFail rfl rfl err404
     (Or.inl ⟨none, rfl⟩)⟩

/-- C5: every request that reaches the combine phase invokes ffmpeg exactly
once, with the video temp path as first input, the audio temp path as second,
writing to the output temp path, and with exactly the options that copy the
video stream (`-c:v copy`), re-encode audio to aac at 192k
(`-c:a aac`, `-b:a 192k`), select video from input 0 and audio from input 1
(`-map 0:v:0`, `-map 1:a:0`), truncate to the shorter duration (`-shortest`),
enable progressive playback (`-movflags +faststart`) and overwrite any
existing output (`-y`). -/
theorem merge_ffmpeg_invocation (req : Req) (env : Env)
    (hv : truthy req.videoUrl = true) (ha : truthy req.audioUrl = true)
    (vb ab : List Nat) (hvd : env.videoDL = .ok vb) (had : env.audioDL = .ok ab) :
    (runMerge req env).events.countP
      (fun e => match e with | .ffmpegRun _ _ _ => true | _ => false) = 1 ∧
    Event.ffmpegRun
      [videoPathOf env.timestamp env.randomId, audioPathOf env.timestamp env.randomId]
      ffmpegOutputOptions (outputPathOf env.timestamp env.randomId)
      ∈ (runMerge req env).events ∧
    ffmpegOutputOptions = ["-c:v copy", "-c:a aac", "-b:a 192k", "-map 0:v:0",
      "-map 1:a:0", "-shortest", "-movflags +faststart", "-y"] := by
  obtain hev | hev := runMerge_events_combine req env hv ha vb ab hvd had <;>
    rw [hev] <;>
    exact ⟨by simp [List.countP_cons], by simp, rfl⟩

/-- C5 witness: the invocation property at a concrete request and a fully
successful environment. -/
theorem merge_ffmpeg_invocation_witness :
    (truthy reqDemo.videoUrl = true ∧ truthy reqDemo.audioUrl = true ∧
     envOk.videoDL = DLOutcome.ok [0, 0, 0, 32] ∧
     envOk.audioDL = DLOutcome.ok [73, 68, 51]) ∧
    ((runMerge reqDemo envOk).events.countP
       (fun e => match e with | .ffmpegRun _ _ _ => true | _ => false) = 1 ∧
     Event.ffmpegRun
       [videoPathOf envOk.timestamp envOk.randomId,
        audioPathOf envOk.timestamp envOk.randomId]
       ffmpegOutputOptions (outputPathOf envOk.timestamp envOk.randomId)
       ∈ (runMerge reqDemo envOk).events ∧
     ffmpegOutputOptions = ["-c:v copy", "-c:a aac", "-b:a 192k", "-map 0:v:0",
       "-map 1:a:0", "-shortest", "-movflags +faststart", "-y"]) :=
  ⟨⟨rfl, rfl, rfl, rfl⟩,
   merge_ffmpeg_invocation reqDemo envOk rfl rfl [0, 0, 0, 32] [73, 68, 51] rfl rfl⟩

/-- C6: each stream is fetched with its own distinct size ceiling and timeout
(video: 60000 ms / 50 MiB, audio: 30000 ms / 10 MiB), the video fetch always
coming first, and both of the video limits are strictly larger than the audio
ones. -/
theorem merge_per_stream_limits (req : Req) (env : Env)
    (hv : truthy req.videoUrl = true) (ha : truthy req.audioUrl = true) :
    (downloadsOf (runMerge req env).events
       = [(req.videoUrl.getD "", videoTimeoutMs, videoMaxBytes)] ∨
     downloadsOf (runMerge req env).events
       = [(req.videoUrl.getD "", videoTimeoutMs, videoMaxBytes),
          (req.audioUrl.getD "", audioTimeoutMs, audioMaxBytes)]) ∧
    videoTimeoutMs = 60000 ∧ videoMaxBytes = 50 * 1024 * 1024 ∧
    audioTimeoutMs = 30000 ∧ audioMaxBytes = 10 * 1024 * 1024 ∧
    audioTimeoutMs < videoTimeoutMs ∧ audioMaxBytes < videoMaxBytes := by
  refine ⟨?_, rfl, rfl, rfl, rfl, by decide, by decide⟩
  obtain hev | hev | hev | hev := runMerge_events_shape req env hv ha <;> rw [hev]
  · exact Or.inl rfl
  · exact Or.inr rfl
  · exact Or.inr rfl
  · exact Or.inr rfl

/-- C6 witness: the per-stream limits at a concrete request and a fully
successful environment. -/
theorem merge_per_stream_limits_witness :
    (truthy reqDemo.videoUrl = true ∧ truthy reqDemo.audioUrl = true) ∧
    ((downloadsOf (runMerge reqDemo envOk).events
        = [(reqDemo.videoUrl.getD "", videoTimeoutMs, videoMaxBytes)] ∨
      downloadsOf (runMerge reqDemo envOk).events
        = [(reqDemo.videoUrl.getD "", videoTimeoutMs, videoMaxBytes),
           (reqDemo.audioUrl.getD "", audioTimeoutMs, audioMaxBytes)]) ∧
     videoTimeoutMs = 60000 ∧ videoMaxBytes = 50 * 1024 * 1024 ∧
     audioTimeoutMs = 30000 ∧ audioMaxBytes = 10 * 1024 * 1024 ∧
     audioTimeoutMs < videoTimeoutMs ∧ audioMaxBytes < videoMaxBytes) :=
  ⟨⟨rfl, rfl⟩, merge_per_stream_limits reqDemo envOk rfl rfl⟩

/-- C7: if both downloads succeed and ffmpeg reports success but the output
path does not exist on storage afterwards, the request fails with HTTP 500
carrying the defensive `Output file was not created` error, and no file is
ever read or encoded. -/
theorem merge_missing_output_rejected (req : Req) (env : Env)
    (hv : truthy req.videoUrl = true) (ha : truthy req.audioUrl = true)
    (vb ab : List Nat) (hvd : env.videoDL = .ok vb) (had : env.audioDL = .ok ab)
    (hff : env.ffmpegExit = .ok ()) (hwo : env.ffmpegWritesOutput = false)
    (hex : fsExists env.fs0 (outputPathOf env.timestamp env.randomId) = false) :
    (runMerge req env).status = 500 ∧
    (runMerge req env).body = errorBody
      { message := "Output file was not created", stack := env.freshStack } ∧
    ∀ p, Event.fileRead p ∉ (runMerge req env).events := by
  have hex2 : fsExists
      (fsWrite (fsWrite env.fs0 (videoPathOf env.timestamp env.randomId) vb)
        (audioPathOf env.timestamp env.randomId) ab)
      (outputPathOf env.timestamp env.randomId) = false := by
    rw [fsExists_fsWrite_ne _ _ _ _ (audioPath_ne_outputPath env.timestamp env.randomId),
        fsExists_fsWrite_ne _ _ _ _ (videoPath_ne_outputPath env.timestamp env.randomId)]
    exact hex
  rw [runMerge_noOutput req env hv ha vb ab hvd had hff hwo hex2]
  refine ⟨rfl, rfl, ?_⟩
  intro p hmem
  simp [catchResult] at hmem

/-- C7 witness: the defensive check at a concrete request and an environment
whose ffmpeg run silently produces nothing. -/
theorem merge_missing_output_rejected_witness :
    (truthy reqDemo.videoUrl = true ∧ truthy reqDemo.audioUrl = true ∧
     envNoOutput.videoDL = DLOutcome.ok [0, 0, 0, 32] ∧
     envNoOutput.audioDL = DLOutcome.ok [73, 68, 51] ∧
     envNoOutput.ffmpegExit = Except.ok () ∧
     envNoOutput.ffmpegWritesOutput = false ∧
     fsExists envNoOutput.fs0
       (outputPathOf envNoOutput.timestamp envNoOutput.randomId) = false) ∧
    ((runMerge reqDemo envNoOutput).status = 500 ∧
     (runMerge reqDemo envNoOutput).body = errorBody
       { message := "Output file was not created", stack := envNoOutput.freshStack } ∧
     ∀ p, Event.fileRead p ∉ (runMerge reqDemo envNoOutput).events) :=
  ⟨⟨rfl, rfl, rfl, rfl, rfl, rfl, rfl⟩,
   merge_missing_output_rejected reqDemo envNoOutput rfl rfl [0, 0, 0, 32] [73, 68, 51]
     rfl rfl rfl rfl rfl⟩

/-- C8: on every fully successful request the response is 200 and decoding the
base64 string in its body reproduces the merged output file's bytes exactly. -/
theorem merge_base64_roundtrip (req : Req) (env : Env)
    (hv : truthy req.videoUrl = true) (ha : truthy req.audioUrl = true)
    (vb ab : List Nat) (hvd : env.videoDL = .ok vb) (had : env.audioDL = .ok ab)
    (hff : env.ffmpegExit = .ok ()) (hwo : env.ffmpegWritesOutput = true)
    (hbytes : ∀ b ∈ env.outputBytes, b < 256) :
    (runMerge req env).status = 200 ∧
    ∃ s : String, jsonField (runMerge req env).body "base64" = some (Json.str s) ∧
      base64Decode s.data = some env.outputBytes := by
  rw [runMerge_success req env hv ha vb ab hvd had hff hwo]
  refine ⟨rfl, String.mk (base64Encode env.outputBytes), ?_, ?_⟩
  · simp [successBody, jsonField]
  · exact base64_roundtrip env.outputBytes hbytes

/-- C8 witness: the round trip at a concrete request whose output bytes are
`[0, 255, 10, 66]`. -/
theorem merge_base64_roundtrip_witness :
    (truthy reqDemo.videoUrl = true ∧ truthy reqDemo.audioUrl = true ∧
     envOk.videoDL = DLOutcome.ok [0, 0, 0, 32] ∧
     envOk.audioDL = DLOutcome.ok [73, 68, 51] ∧
     envOk.ffmpegExit = Except.ok () ∧ envOk.ffmpegWritesOutput = true ∧
     ∀ b ∈ envOk.outputBytes, b < 256) ∧
    ((runMerge reqDemo envOk).status = 200 ∧
     ∃ s : String, jsonField (runMerge reqDemo envOk).body "base64"
         = some (Json.str s) ∧
       base64Decode s.data = some envOk.outputBytes) :=
  ⟨⟨rfl, rfl, rfl, rfl, rfl, rfl, by decide⟩,
   merge_base64_roundtrip reqDemo envOk rfl rfl [0, 0, 0, 32] [73, 68, 51]
     rfl rfl rfl rfl (by decide)⟩

/-- C9: the three temporary paths generated for one request share the
timestamp-plus-random suffix but carry distinct fixed prefixes, so they are
pairwise distinct strings for every timestamp and random id: no phase of a
request can overwrite one of its own other artifacts. -/
theorem merge_temp_paths_distinct (ts : Nat) (rid : String) :
    videoPathOf ts rid ≠ audioPathOf ts rid ∧
    videoPathOf ts rid ≠ outputPathOf ts rid ∧
    audioPathOf ts rid ≠ outputPathOf ts rid :=
  ⟨videoPath_ne_audioPath ts rid, videoPath_ne_outputPath ts rid,
   audioPath_ne_outputPath ts rid⟩

/-- C10: within one validated request the phases are strictly sequential: the
audio fetch is only ever started after the video file write has completed, and
the ffmpeg invocation only ever happens after both file writes have
completed. -/
theorem merge_sequential_phases (req : Req) (env : Env)
    (hv : truthy req.videoUrl = true) (ha : truthy req.audioUrl = true) :
    eventsBefore (runMerge req env).events
      (Event.fileWrite (videoPathOf env.timestamp env.randomId))
      (Event.download (req.audioUrl.getD "") audioTimeoutMs audioMaxBytes) ∧
    eventsBefore (runMerge req env).events
      (Event.fileWrite (videoPathOf env.timestamp env.randomId))
      (Event.ffmpegRun
        [videoPathOf env.timestamp env.randomId,
         audioPathOf env.timestamp env.randomId]
        ffmpegOutputOptions (outputPathOf env.timestamp env.randomId)) ∧
    eventsBefore (runMerge req env).events
      (Event.fileWrite (audioPathOf env.timestamp env.randomId))
      (Event.ffmpegRun
        [videoPathOf env.timestamp env.randomId,
         audioPathOf env.timestamp env.randomId]
        ffmpegOutputOptions (outputPathOf env.timestamp env.randomId)) := by
  obtain hev | hev | hev | hev := runMerge_events_shape req env hv ha <;> rw [hev]
  · refine ⟨?_, ?_, ?_⟩
    · intro j hj
      rcases j with _ | j
      · simp [videoTimeoutMs, audioTimeoutMs, videoMaxBytes, audioMaxBytes] at hj
      · simp at hj
    · intro j hj
      rcases j with _ | j
      · simp at hj
      · simp at hj
    · intro j hj
      rcases j with _ | j
      · simp at hj
      · simp at hj
  · refine ⟨?_, ?_, ?_⟩
    · intro j hj
      rcases j with _ | (_ | j)
      · simp [videoTimeoutMs, audioTimeoutMs, videoMaxBytes, audioMaxBytes] at hj
      · simp at hj
      · exact ⟨1, by omega, rfl⟩
    · intro j hj
      rcases j with _ | (_ | (_ | j))
      · simp at hj
      · simp at hj
      · simp at hj
      · simp at hj
    · intro j hj
      rcases j with _ | (_ | (_ | j))
      · simp at hj
      · simp at hj
      · simp at hj
      · simp at hj
  · refine ⟨?_, ?_, ?_⟩
    · intro j hj
      rcases j with _ | (_ | j)
      · simp [videoTimeoutMs, audioTimeoutMs, videoMaxBytes, audioMaxBytes] at hj
      · simp at hj
      · exact ⟨1, by omega, rfl⟩
    · intro j hj
      rcases j with _ | (_ | (_ | (_ | j)))
      · simp at hj
      · simp at hj
      · simp at hj
      · simp at hj
      · exact ⟨1, by omega, rfl⟩
    · intro j hj
      rcases j with _ | (_ | (_ | (_ | j)))
      · simp at hj
      · simp at hj
      · simp at hj
      · simp at hj
      · exact ⟨3, by omega, rfl⟩
  · refine ⟨?_, ?_, ?_⟩
    · intro j hj
      rcases j with _ | (_ | j)
      · simp [videoTimeoutMs, audioTimeoutMs, videoMaxBytes, audioMaxBytes] at hj
      · simp at hj
      · exact ⟨1, by omega, rfl⟩
    · intro j hj
      rcases j with _ | (_ | (_ | (_ | j)))
      · simp at hj
      · simp at hj
      · simp at hj
      · simp at hj
      · exact ⟨1, by omega, rfl⟩
    · intro j hj
      rcases j with _ | (_ | (_ | (_ | j)))
      · simp at hj
      · simp at hj
      · simp at hj
      · simp at hj
      · exact ⟨3, by omega, rfl⟩

/-- C10 witness: the sequential ordering at a concrete request and a fully
successful environment. -/
theorem merge_sequential_phases_witness :
    (truthy reqDemo.videoUrl = true ∧ truthy reqDemo.audioUrl = true) ∧
    (eventsBefore (runMerge reqDemo envOk).events
       (Event.fileWrite (videoPathOf envOk.timestamp envOk.randomId))
       (Event.download (reqDemo.audioUrl.getD "") audioTimeoutMs audioMaxBytes) ∧
     eventsBefore (runMerge reqDemo envOk).events
       (Event.fileWrite (videoPathOf envOk.timestamp envOk.randomId))
       (Event.ffmpegRun
         [videoPathOf envOk.timestamp envOk.randomId,
          audioPathOf envOk.timestamp envOk.randomId]
         ffmpegOutputOptions (outputPathOf envOk.timestamp envOk.randomId)) ∧
     eventsBefore (runMerge reqDemo envOk).events
       (Event.fileWrite (audioPathOf envOk.timestamp envOk.randomId))
       (Event.ffmpegRun
         [videoPathOf envOk.timestamp envOk.randomId,
          audioPathOf envOk.timestamp envOk.randomId]
         ffmpegOutputOptions (outputPathOf envOk.timestamp envOk.randomId))) :=
  ⟨⟨rfl, rfl⟩, merge_sequential_phases reqDemo envOk rfl rfl⟩
